import Mathlib

/-!
# PesaFlow payment core — shallow embedding

A shallow embedding of the payment lifecycle code of the PesaFlow Django
repository, together with theorems checking the natural-language
specification against it.

Conventions used throughout:

* Monetary values are exact decimals represented as `Int` in cents
  (`DecimalField(decimal_places=2)` values scaled by 100).  All arithmetic
  in the source on these fields is exact decimal arithmetic.
* Timestamps (`timezone.now()`) and dates are abstract instants represented
  as `Nat`; the strftime-formatted date fragments used inside generated
  reference strings are passed in as `String` arguments.
* Django model rows are Lean structures; a `save()` method becomes a pure
  function from the old row (plus the external inputs the method reads:
  clock, random draw, query results) to the new row.
* Database query results consumed by a method (`.first()`, `.get(...)`)
  are passed to the embedded function as explicit arguments.
* Fallible steps return `Except`/error responses.
-/

namespace PesaFlow

/-- `str(n).zfill(width)` for a natural number rendered by `toString`. -/
def zfill (width : Nat) (s : String) : String :=
  String.mk (List.replicate (width - s.length) '0') ++ s

/-- `s.split('-')[-1]` : the characters after the last `'-'` (the whole
string when it contains none), i.e. the last element of the
`str.split('-')` list. -/
def trailingSegment (s : String) : String :=
  String.mk ((s.data.reverse.takeWhile (fun c => c ≠ '-')).reverse)

/-- `int(s)` on a nonnegative decimal-digit string (the only shape fed to
`int()` by the reference generators).  `none` models the `ValueError` that
`int()` raises on anything else. -/
def parseNat? (s : String) : Option Nat :=
  if s.data ≠ [] ∧ s.data.all Char.isDigit then
    some (s.data.foldl (fun acc c => acc * 10 + (c.toNat - 48)) 0)
  else none

/-- `int(s.split('-')[-1])` : the trailing numeric segment of a generated
reference such as `"INV-ACM-202510-00007"`.  (Every input considered in the
theorems below is well formed, so the fallback value 0 standing in for the
`ValueError` path is never exercised.) -/
def trailingNumber (s : String) : Nat :=
  (parseNat? (trailingSegment s)).getD 0

/-- `s[:3]` as a character-list truncation. -/
def strTake (s : String) (n : Nat) : String :=
  String.mk (s.data.take n)

/-- `s.upper()` as a character-wise map. -/
def strUpper (s : String) : String :=
  String.mk (s.data.map Char.toUpper)

/-- `name[:3].upper()` — the organization prefix used in generated
references (src/payments/models.py lines 123 and 238). -/
def orgCode3 (name : String) : String :=
  strUpper (strTake name 3)

/-- The `Payment` model (src/payments/models.py, class `Payment`).
Only the fields read or written by the code under verification are kept;
`pk` stands for the primary key used to address the row on update. -/
structure Payment where
  pk : Nat := 0
  org_name : String := ""
  customer : Option Nat := none
  payment_reference : String := ""
  external_reference : String := ""
  description : String := ""
  amount : Int := 0
  transaction_fee : Int := 0
  net_amount : Int := 0
  payment_method : String := "mpesa"
  payment_type : String := "other"
  mpesa_checkout_request_id : String := ""
  status : String := "pending"
  completed_at : Option Nat := none
  payer_phone : String := ""
  payer_name : String := ""
  is_reversed : Bool := false
  reversal_reason : String := ""
  reversed_at : Option Nat := none
  deriving Repr, DecidableEq

/-- `Payment.save` (src/payments/models.py lines 117-129).

`random_part` is the value drawn by `random.randint(10000, 99999)` on
line 122 — the draw is an external input of the save, made explicit here;
`date_part` is `timezone.now().strftime('%Y%m%d')`.  The method generates
`payment_reference` only when it is still blank, and unconditionally
overwrites `net_amount` with `amount - transaction_fee`. -/
def Payment.save (random_part : Nat) (date_part : String) (p : Payment) : Payment :=
  let p :=
    if p.payment_reference = "" then
      { p with payment_reference :=
          "PAY-" ++ orgCode3 p.org_name ++ "-" ++ date_part ++ "-" ++ toString random_part }
    else p
  { p with net_amount := p.amount - p.transaction_fee }

/-- The `Invoice` model (src/payments/models.py, class `Invoice`).
Note: the model declares no `currency` field (lines 145-255); this matters
for `InvoiceViewSet.record_payment` below. -/
structure Invoice where
  pk : Nat := 0
  org_name : String := ""
  customer_id : Nat := 0
  invoice_number : String := ""
  issue_date : Nat := 0
  due_date : Nat := 0
  paid_date : Option Nat := none
  subtotal : Int := 0
  tax_amount : Int := 0
  discount_amount : Int := 0
  total_amount : Int := 0
  amount_paid : Int := 0
  balance_due : Int := 0
  status : String := "draft"
  deriving Repr, DecidableEq

/-- `Invoice.save` (src/payments/models.py lines 224-255).

`today` is `timezone.now().date()`, `date_part` its `'%Y%m'` rendering, and
`last_invoice` the query result
`Invoice.objects.filter(organization=...).order_by('-created_at').first()`
— the organization's most recently created invoice, or `none`.

The method: generates `invoice_number` only when blank (sequence = trailing
number of the last invoice + 1, or 1 when there is none); recomputes
`balance_due = total_amount - amount_paid`; then derives `status`:
`paid` when `amount_paid >= total_amount` (stamping `paid_date` if unset),
else `partially_paid` when `amount_paid > 0`, else `overdue` when
`due_date` has passed, else unchanged.

Scoping caveat translated faithfully: the module has no top-level
`timezone` import; `timezone` is a *function-local* name bound only by the
`from django.utils import timezone` statements inside the blank-number
block (line 226) and the `paid_date` block (line 248).  The `elif` on line
252 evaluates `timezone.now()` (`due_date`, a non-null `DateField`, is
always truthy, so the conjunction does not short-circuit), so reaching it
without having executed line 226 raises `UnboundLocalError` and
`super().save()` never runs: the save persists nothing.  `tz_bound` tracks
whether line 226 executed; the line-248 binding only ever happens on the
`paid` branch, which uses `timezone` within that same block. -/
def Invoice.save (today : Nat) (date_part : String) (last_invoice : Option Invoice)
    (inv : Invoice) : Except String Invoice :=
  let tz_bound := inv.invoice_number = ""
  let inv : Invoice :=
    if inv.invoice_number = "" then
      let new_num :=
        match last_invoice with
        | some li => if li.invoice_number ≠ "" then trailingNumber li.invoice_number + 1 else 1
        | none => 1
      { inv with invoice_number :=
          "INV-" ++ orgCode3 inv.org_name ++ "-" ++ date_part ++ "-" ++ zfill 5 (toString new_num) }
    else inv
  let inv : Invoice := { inv with balance_due := inv.total_amount - inv.amount_paid }
  if inv.total_amount ≤ inv.amount_paid then
    .ok { inv with status := "paid",
                   paid_date := if inv.paid_date = none then some today else inv.paid_date }
  else if 0 < inv.amount_paid then
    .ok { inv with status := "partially_paid" }
  else if tz_bound then
    .ok (if inv.due_date < today then { inv with status := "overdue" } else inv)
  else
    .error "UnboundLocalError: local variable timezone referenced before assignment"

example :
    (Payment.save 12345 "20251012"
      { org_name := "Acme Ltd", amount := 50000, transaction_fee := 700 }).payment_reference
      = "PAY-ACM-20251012-12345" := by decide

example :
    (Payment.save 12345 "20251012"
      { org_name := "Acme Ltd", amount := 50000, transaction_fee := 700 }).net_amount
      = 49300 := by decide

example :
    (Invoice.save 738000 "202510" none
      { org_name := "Acme Ltd", total_amount := 100000, amount_paid := 40000,
        due_date := 738100 }).toOption.map Invoice.status = some "partially_paid" := by decide

example :
    (Invoice.save 738000 "202510"
      (some { invoice_number := "INV-ACM-202509-00041" })
      { org_name := "Acme Ltd", total_amount := 100000, amount_paid := 100000,
        due_date := 738100 }).toOption.map Invoice.invoice_number
      = some "INV-ACM-202510-00042" := by decide

example :
    (Invoice.save 738000 "202510" none
      { org_name := "Acme Ltd", invoice_number := "INV-ACM-202509-00041",
        total_amount := 100000, amount_paid := 0, due_date := 737000 }).toOption
      = none := by decide

/-- C3: after every `Payment.save` — whichever flow invoked it (creation,
webhook completion, reversal, manual record) — the stored `net_amount`
equals `amount - transaction_fee`, regardless of the `net_amount` value the
caller had placed on the instance. -/
theorem payment_save_net_amount (random_part : Nat) (date_part : String) (p : Payment) :
    (Payment.save random_part date_part p).net_amount = p.amount - p.transaction_fee := by
  cases p
  simp only [Payment.save]
  split <;> rfl

/-- C4 at its failing input: the claimed on-every-save derivation is not
what the program does.  Saving an existing (already numbered) invoice with
`amount_paid ≤ 0 < total_amount` — e.g. a freshly issued unpaid invoice
being re-saved — reaches line 252's `timezone.now()` with the function-local
`timezone` unbound and raises `UnboundLocalError`, persisting nothing;
this happens whether the due date has passed (first conjunct) or not
(second conjunct).  For contrast, the same row saves fine once
`amount_paid > 0`, and a fresh blank-number save derives `overdue`
normally because line 226 bound `timezone`. -/
theorem invoice_save_unbound_timezone_failing_input :
    ((Invoice.save 738200 "202510" none
        { org_name := "Acme Ltd", invoice_number := "INV-ACM-202510-00007",
          total_amount := 100000, amount_paid := 0, due_date := 738100,
          status := "sent" })
      = .error "UnboundLocalError: local variable timezone referenced before assignment") ∧
    ((Invoice.save 738000 "202510" none
        { org_name := "Acme Ltd", invoice_number := "INV-ACM-202510-00007",
          total_amount := 100000, amount_paid := 0, due_date := 738100,
          status := "sent" })
      = .error "UnboundLocalError: local variable timezone referenced before assignment") ∧
    ((Invoice.save 738200 "202510" none
        { org_name := "Acme Ltd", invoice_number := "INV-ACM-202510-00007",
          total_amount := 100000, amount_paid := 40000, due_date := 738100,
          status := "sent" }).toOption.map Invoice.status = some "partially_paid") ∧
    ((Invoice.save 738200 "202510" none
        { org_name := "Acme Ltd", total_amount := 100000, amount_paid := 0,
          due_date := 738100, status := "sent" }).toOption.map Invoice.status
      = some "overdue") :=
  ⟨rfl, rfl, by decide, by decide⟩

/-- C7 counterexample: Payment reference generation is not deterministic
and its trailing part is not a sequence derived from the previous entity —
it is the value drawn by `random.randint(10000, 99999)`.  Two saves of the
same fresh Payment, in the same organization on the same date and with the
same (absent) prior entities, yield different references for different
random draws. -/
theorem payment_reference_random_counterexample :
    (Payment.save 10000 "20251012" { org_name := "Acme Ltd" }).payment_reference
      ≠ (Payment.save 10001 "20251012" { org_name := "Acme Ltd" }).payment_reference := by
  decide

/-- C7 amended: Invoice numbers are generated as
`INV-{ORG3}-{YYYYMM}-{zero-padded sequence}` with the sequence parsed from
the most recently created invoice's trailing segment plus one (1 when there
is none), while Payment references are `PAY-{ORG3}-{YYYYMMDD}-{random}`
with a freshly drawn random part, not a sequence.  Both identifiers are
generated only when blank and are never recomputed on later saves. -/
theorem reference_generation_amended
    (p : Payment) (random_part : Nat) (dp : String)
    (inv : Invoice) (today : Nat) (dpi : String) (li : Invoice) :
    (p.payment_reference = "" →
      (Payment.save random_part dp p).payment_reference
        = "PAY-" ++ orgCode3 p.org_name ++ "-" ++ dp ++ "-" ++ toString random_part) ∧
    (p.payment_reference ≠ "" →
      (Payment.save random_part dp p).payment_reference = p.payment_reference) ∧
    (inv.invoice_number = "" →
      ∃ saved, Invoice.save today dpi none inv = .ok saved ∧
        saved.invoice_number
          = "INV-" ++ orgCode3 inv.org_name ++ "-" ++ dpi ++ "-" ++ "00001") ∧
    (inv.invoice_number = "" → li.invoice_number ≠ "" →
      ∃ saved, Invoice.save today dpi (some li) inv = .ok saved ∧
        saved.invoice_number
          = "INV-" ++ orgCode3 inv.org_name ++ "-" ++ dpi ++ "-"
              ++ zfill 5 (toString (trailingNumber li.invoice_number + 1))) ∧
    (inv.invoice_number ≠ "" →
      ∀ saved, Invoice.save today dpi (some li) inv = .ok saved →
        saved.invoice_number = inv.invoice_number) := by
  refine ⟨?_, ?_, ?_, ?_, ?_⟩ <;> intro h
  · cases p
    simp_all [Payment.save]
  · cases p
    simp_all [Payment.save]
  · cases inv
    have h1 : zfill 5 (toString 1) = "00001" := by decide
    simp_all [Invoice.save]
    split_ifs <;> simp_all [h1]
  · intro h2
    cases inv
    simp_all [Invoice.save]
    split_ifs <;> simp_all
  · intro saved
    cases inv
    simp_all [Invoice.save]
    split_ifs <;> intro hsv <;>
      first
      | (cases hsv; rfl)
      | simp_all

/-- Witness for the amended C7 theorem at concrete inputs. -/
theorem reference_generation_amended_witness :
    (("" : String) = "" →
      (Payment.save 12345 "20251012"
        { org_name := "Acme Ltd" }).payment_reference
        = "PAY-" ++ orgCode3 "Acme Ltd" ++ "-" ++ "20251012" ++ "-" ++ toString 12345) ∧
    (("" : String) ≠ "" →
      (Payment.save 12345 "20251012"
        { org_name := "Acme Ltd" }).payment_reference = "") ∧
    (("" : String) = "" →
      ∃ saved, Invoice.save 738000 "202510" none
        { org_name := "Acme Ltd", due_date := 738100 } = .ok saved ∧
        saved.invoice_number
          = "INV-" ++ orgCode3 "Acme Ltd" ++ "-" ++ "202510" ++ "-" ++ "00001") ∧
    (("" : String) = "" → ("INV-ACM-202509-00041" : String) ≠ "" →
      ∃ saved, Invoice.save 738000 "202510" (some { invoice_number := "INV-ACM-202509-00041" })
        { org_name := "Acme Ltd", due_date := 738100 } = .ok saved ∧
        saved.invoice_number
          = "INV-" ++ orgCode3 "Acme Ltd" ++ "-" ++ "202510" ++ "-"
              ++ zfill 5 (toString (trailingNumber "INV-ACM-202509-00041" + 1))) ∧
    (("" : String) ≠ "" →
      ∀ saved, Invoice.save 738000 "202510" (some { invoice_number := "INV-ACM-202509-00041" })
        { org_name := "Acme Ltd", due_date := 738100 } = .ok saved →
        saved.invoice_number = "") :=
  reference_generation_amended
    { org_name := "Acme Ltd" } 12345 "20251012"
    { org_name := "Acme Ltd", due_date := 738100 } 738000 "202510"
    { invoice_number := "INV-ACM-202509-00041" }

/-! ## Webhook reconciliation (src/integrations/views.py, `mpesa_callback`) -/

/-- The `Customer` fields touched by the payment flows
(src/customers/models.py). -/
structure Customer where
  id : Nat := 0
  customer_code : String := "C-0"
  first_name : String := ""
  last_name : String := ""
  phone_number : String := ""
  email : String := ""
  last_payment_date : Option Nat := none
  deriving Repr, DecidableEq

/-- The `Integration` fields read by the webhook handler
(src/integrations/views.py lines 480-496). -/
structure Integration where
  webhook_secret : String := ""
  provider : String := "safaricom"
  status : String := "active"
  deriving Repr, DecidableEq

/-- One keyword-argument record passed to `send_notification.delay(...)`
— the enqueued notification request. -/
structure NotificationRequest where
  recipient_type : String := ""
  recipient_id : Option String := none
  notification_type : String := ""
  channel : String := ""
  deriving Repr, DecidableEq

/-- An HTTP response: status code and a summary of the body. -/
structure HttpResponse where
  code : Nat
  body : String
  deriving Repr, DecidableEq

/-- A JSON scalar inside the callback metadata `Item` list. -/
inductive MetaValue
  | str (s : String)
  | num (n : Int)
  deriving Repr, DecidableEq

/-- Assignment of an `Item` value to a `CharField` (string coercion at
persistence). -/
def MetaValue.asString : MetaValue → String
  | .str s => s
  | .num n => toString n

/-- Assignment of an `Item` value to the payment amount.  M-Pesa sends the
`Amount` item as a JSON number; the string fallback (never exercised by the
theorems below) parses digits the way exact conversion would. -/
def MetaValue.asAmount : MetaValue → Int
  | .num n => n
  | .str s => ((parseNat? s).getD 0 : Nat)

/-- One entry of `stkCallback.CallbackMetadata.Item`. -/
structure MetaItem where
  name : String
  value : MetaValue
  deriving Repr, DecidableEq

/-- The `Body.stkCallback` object of an M-Pesa callback payload. -/
structure StkCallback where
  checkoutRequestID : Option String := none
  resultCode : Option Int := none
  resultDesc : String := ""
  merchantRequestID : String := ""
  items : List MetaItem := []
  deriving Repr, DecidableEq

/-- The callback payload.  `hasStkBody` models
`'Body' in callback_data and 'stkCallback' in callback_data['Body']`
(src/integrations/views.py line 502). -/
structure CallbackData where
  hasStkBody : Bool := true
  stk : StkCallback := {}
  deriving Repr, DecidableEq

/-- The `for item in callback_metadata` loop
(src/integrations/views.py lines 523-529): later items override earlier
ones for the same name. -/
def applyCallbackMetadata (items : List MetaItem) (p : Payment) : Payment :=
  items.foldl (fun p item =>
    if item.name = "MpesaReceiptNumber" then { p with external_reference := item.value.asString }
    else if item.name = "Amount" then { p with amount := item.value.asAmount }
    else if item.name = "PhoneNumber" then { p with payer_phone := item.value.asString }
    else p) p

/-- The persistent rows visible to the webhook handler.  `integration` is
the query result
`Integration.objects.filter(integration_type__provider='safaricom', status='active').first()`;
`apilogs` counts `APILog.objects.create` calls; `notifications` records the
`send_notification.delay` enqueues in order; `invoices` is carried along to
make explicit that the handler never touches invoices. -/
structure WebhookState where
  integration : Option Integration := none
  payments : List Payment := []
  customers : List Customer := []
  invoices : List Invoice := []
  notifications : List NotificationRequest := []
  apilogs : Nat := 0
  deriving Repr, DecidableEq

/-- `payment.customer.last_payment_date = timezone.now(); payment.customer.save()`
(src/integrations/views.py lines 535-537), as a keyed row update. -/
def updateCustomerLastPayment (cs : List Customer) (cid : Nat) (now : Nat) : List Customer :=
  cs.map fun c => if c.id = cid then { c with last_payment_date := some now } else c

/-- Writing back the saved payment row by primary key. -/
def storePayment (ps : List Payment) (pk : Nat) (p : Payment) : List Payment :=
  ps.map fun q => if q.pk = pk then p else q

/-- The names bound at module scope in src/integrations/views.py: the
names its import statements bind (lines 1-26 and 454-458) and its
module-level definitions.  `Payment` is not among them — the module never
imports the Payment model. -/
def integrationsViewsGlobals : List String :=
  ["viewsets", "status", "permissions", "filters", "action", "Response",
   "PageNumberPagination", "DjangoFilterBackend", "Q", "Count", "timezone",
   "settings", "secrets", "Integration", "IntegrationType", "APILog",
   "IntegrationSerializer", "IntegrationCreateSerializer",
   "IntegrationUpdateSerializer", "IntegrationTypeSerializer",
   "APILogSerializer", "IntegrationTestSerializer",
   "MpesaCredentialsSerializer", "IsSystemAdmin", "IsBusinessOwnerOrAdmin",
   "CanManageIntegrations", "MpesaSTKPush", "MpesaC2B", "MpesaB2C",
   "api_view", "permission_classes", "hmac", "hashlib", "json",
   "StandardPagination", "IntegrationTypeViewSet", "IntegrationViewSet",
   "APILogViewSet", "mpesa_callback"]

/-- A global-name lookup in that module: Python raises `NameError` for a
name the module never bound. -/
def viewsGlobalLookup (name : String) : Except String Unit :=
  if integrationsViewsGlobals.contains name then .ok ()
  else .error ("NameError: name " ++ name ++ " is not defined")

/-- `mpesa_callback` (src/integrations/views.py lines 460-608).

External inputs made explicit:
* `hmac_sha256 key msg` — the hex digest `hmac.new(key, msg, sha256).hexdigest()`;
* `serialize` — `json.dumps(request.data)`;
* `now` — `timezone.now()`;
* `random_part`, `date_part` — the inputs of any `Payment.save` it performs;
* `signature` — the `X-Mpesa-Signature` header.

Control flow translated one to one: missing signature → 400; no active
safaricom integration → 400; signature different from the expected digest →
401 with no other effect.  For an STK payload, line 509 reads the global
`Payment` — a name this module never imports — so the lookup raises
`NameError`; the inner `try`'s only clause (`except Payment.DoesNotExist`,
line 574) re-raises `NameError` while evaluating its exception class, and
the outer `except Exception` (line 594) writes one error APILog and answers
500: no Payment, Customer, Invoice or Notification is ever touched.  The
lookup-and-mutate logic of lines 509-592 is translated below for
completeness but sits in the dead `.ok` arm.  A non-STK payload skips to
line 592 and answers 200. -/
def mpesa_callback
    (hmac_sha256 : String → String → String)
    (serialize : CallbackData → String)
    (now : Nat) (random_part : Nat) (date_part : String)
    (st : WebhookState) (signature : Option String) (data : CallbackData) :
    WebhookState × HttpResponse :=
  match signature with
  | none => (st, ⟨400, "Missing signature"⟩)
  | some sig =>
    match st.integration with
    | none => (st, ⟨400, "Integration not found"⟩)
    | some integration =>
      let expected := hmac_sha256 integration.webhook_secret (serialize data)
      if sig ≠ expected then
        (st, ⟨401, "Invalid signature"⟩)
      else if data.hasStkBody then
        match viewsGlobalLookup "Payment" with
        | .error e => ({ st with apilogs := st.apilogs + 1 }, ⟨500, e⟩)
        | .ok _ =>
        let stk := data.stk
        match st.payments.find? (fun p => some p.mpesa_checkout_request_id = stk.checkoutRequestID) with
        | none =>
          ({ st with apilogs := st.apilogs + 1 }, ⟨200, "ok"⟩)
        | some payment =>
          if stk.resultCode = some 0 then
            let p1 := { payment with status := "completed",
                                     external_reference := stk.merchantRequestID }
            let p2 := applyCallbackMetadata stk.items p1
            let p3 := Payment.save random_part date_part { p2 with completed_at := some now }
            let customers1 :=
              match p3.customer with
              | some cid => updateCustomerLastPayment st.customers cid now
              | none => st.customers
            let notif : NotificationRequest :=
              { recipient_type := "customer",
                recipient_id := p3.customer.map toString,
                notification_type := "payment_received",
                channel := "sms" }
            ({ st with payments := storePayment st.payments payment.pk p3,
                       customers := customers1,
                       notifications := st.notifications ++ [notif],
                       apilogs := st.apilogs + 1 }, ⟨200, "ok"⟩)
          else
            let p3 := Payment.save random_part date_part { payment with status := "failed" }
            ({ st with payments := storePayment st.payments payment.pk p3,
                       apilogs := st.apilogs + 1 }, ⟨200, "ok"⟩)
      else
        (st, ⟨200, "ok"⟩)

/-- C2: a webhook request carrying a signature different from the
HMAC-SHA256 digest of the serialized body under the resolved integration's
webhook secret is answered 401 and the whole state — every Payment
included — is returned untouched, whatever the payload contains. -/
theorem callback_invalid_signature_no_mutation
    (hmac_sha256 : String → String → String) (serialize : CallbackData → String)
    (now random_part : Nat) (date_part : String)
    (st : WebhookState) (integration : Integration) (sig : String) (data : CallbackData)
    (hint : st.integration = some integration)
    (hsig : sig ≠ hmac_sha256 integration.webhook_secret (serialize data)) :
    mpesa_callback hmac_sha256 serialize now random_part date_part st (some sig) data
      = (st, ⟨401, "Invalid signature"⟩) := by
  simp [mpesa_callback, hint, hsig]

/-- Witness for C2 at concrete inputs. -/
theorem callback_invalid_signature_no_mutation_witness :
    ({ integration := some { webhook_secret := "sek" },
       payments := [{ pk := 1, status := "completed" }] } : WebhookState).integration
        = some { webhook_secret := "sek" } ∧
    ("bad" : String) ≠ (fun k m => k ++ "#" ++ m) "sek" ((fun _ => "BODY") ({} : CallbackData)) ∧
    mpesa_callback (fun k m => k ++ "#" ++ m) (fun _ => "BODY") 5 6 "20251012"
      { integration := some { webhook_secret := "sek" },
        payments := [{ pk := 1, status := "completed" }] } (some "bad") {}
      = ({ integration := some { webhook_secret := "sek" },
           payments := [{ pk := 1, status := "completed" }] }, ⟨401, "Invalid signature"⟩) :=
  ⟨rfl, by decide,
    callback_invalid_signature_no_mutation (fun k m => k ++ "#" ++ m) (fun _ => "BODY")
      5 6 "20251012" _ { webhook_secret := "sek" } "bad" {} rfl (by decide)⟩

/-- A concrete stand-in for the HMAC-SHA256 hex-digest function, used only
to instantiate witnesses (the theorems hold for every digest function). -/
def hmacFn (key msg : String) : String := key ++ "#" ++ msg

/-- A concrete stand-in for `json.dumps`, used only in witnesses. -/
def serFn (_ : CallbackData) : String := "BODY"

/-- Scenario-B fixtures (spec §8): a processing Payment awaiting its
callback, its Customer, and the success payload. -/
def scB_p : Payment :=
  { pk := 1, org_name := "Acme", customer := some 9,
    payment_reference := "PAY-ACM-20251011-55555", amount := 40000,
    transaction_fee := 700, mpesa_checkout_request_id := "ws_CO_1",
    status := "processing", payer_phone := "254700000000" }

def scB_c : Customer := { id := 9 }

def scB_integ : Integration := { webhook_secret := "sek" }

def scB_data : CallbackData :=
  { hasStkBody := true,
    stk := { checkoutRequestID := some "ws_CO_1", resultCode := some 0,
             merchantRequestID := "MR1",
             items := [⟨"MpesaReceiptNumber", .str "RCPT1"⟩, ⟨"Amount", .num 50000⟩,
                       ⟨"PhoneNumber", .str "254700000001"⟩] } }

def scB_st : WebhookState :=
  { integration := some scB_integ, payments := [scB_p], customers := [scB_c] }

/-- C5 at its failing input (spec scenario B): a valid-signature STK
callback with result code 0 and the matching `CheckoutRequestID` of an
existing processing Payment does not complete it.  Line 509 reads the
unimported global `Payment` and raises `NameError`; the handler answers 500
with one error APILog, the Payment keeps status `processing` and its
`completed_at`/`external_reference` untouched, the linked Customer's
`last_payment_date` is not stamped, and no Notification is enqueued. -/
theorem callback_success_path_nameerror_failing_input :
    ((mpesa_callback hmacFn serFn 200 777 "20251012" scB_st
        (some (hmacFn scB_integ.webhook_secret (serFn scB_data))) scB_data).2
      = ⟨500, "NameError: name Payment is not defined"⟩) ∧
    ((mpesa_callback hmacFn serFn 200 777 "20251012" scB_st
        (some (hmacFn scB_integ.webhook_secret (serFn scB_data))) scB_data).1.payments
      = scB_st.payments) ∧
    ((mpesa_callback hmacFn serFn 200 777 "20251012" scB_st
        (some (hmacFn scB_integ.webhook_secret (serFn scB_data))) scB_data).1.payments.map
        Payment.status = ["processing"]) ∧
    ((mpesa_callback hmacFn serFn 200 777 "20251012" scB_st
        (some (hmacFn scB_integ.webhook_secret (serFn scB_data))) scB_data).1.customers
      = scB_st.customers) ∧
    ((mpesa_callback hmacFn serFn 200 777 "20251012" scB_st
        (some (hmacFn scB_integ.webhook_secret (serFn scB_data))) scB_data).1.notifications
      = scB_st.notifications) ∧
    ((mpesa_callback hmacFn serFn 200 777 "20251012" scB_st
        (some (hmacFn scB_integ.webhook_secret (serFn scB_data))) scB_data).1.apilogs
      = scB_st.apilogs + 1) := by
  decide

/-- Duplicate-delivery fixtures for C1: a Payment already terminal
(`completed`, fields consistent with the payload) and the identical success
callback arriving a second time at t = 200. -/
def dupPayment : Payment :=
  { pk := 1, org_name := "Acme", customer := none,
    payment_reference := "PAY-ACM-20251011-55555", external_reference := "RCPT1",
    amount := 50000, transaction_fee := 0, net_amount := 50000,
    mpesa_checkout_request_id := "ws_CO_1", status := "completed",
    completed_at := some 100, payer_phone := "254700000001" }

def dupData : CallbackData :=
  { hasStkBody := true,
    stk := { checkoutRequestID := some "ws_CO_1", resultCode := some 0,
             merchantRequestID := "MR1",
             items := [⟨"MpesaReceiptNumber", .str "RCPT1"⟩, ⟨"Amount", .num 50000⟩,
                       ⟨"PhoneNumber", .str "254700000001"⟩] } }

def dupState : WebhookState :=
  { integration := some { webhook_secret := "sek" }, payments := [dupPayment] }

/-- C1 counterexample: processing a second, identical valid-signature
success callback for a Payment already in the terminal `completed` state is
not "a no-op that returns success": the handler answers 500, not success
(the Payment itself is indeed untouched — every STK callback dies on the
unimported `Payment` name — and the only effect is one error APILog). -/
theorem callback_duplicate_returns_500_counterexample :
    ((mpesa_callback hmacFn serFn 200 777 "20251012" dupState
        (some (hmacFn "sek" (serFn dupData))) dupData).2.code = 500) ∧
    ((mpesa_callback hmacFn serFn 200 777 "20251012" dupState
        (some (hmacFn "sek" (serFn dupData))) dupData).2.code ≠ 200) ∧
    ((mpesa_callback hmacFn serFn 200 777 "20251012" dupState
        (some (hmacFn "sek" (serFn dupData))) dupData).1.payments
      = dupState.payments) ∧
    ((mpesa_callback hmacFn serFn 200 777 "20251012" dupState
        (some (hmacFn "sek" (serFn dupData))) dupData).1.notifications
      = dupState.notifications) ∧
    ((mpesa_callback hmacFn serFn 200 777 "20251012" dupState
        (some (hmacFn "sek" (serFn dupData))) dupData).1.apilogs
      = dupState.apilogs + 1) := by
  decide

/-- C1 amended: for a Payment already in the terminal `completed` state, a
second, identical valid-signature callback leaves the Payment's status,
`completed_at`, `external_reference` and amount, every Invoice balance, and
the number of Notifications enqueued all unchanged — but not through an
idempotence guard, and it does not return success: the handler's `Payment`
lookup raises `NameError` on every STK payload, so the duplicate answers
500 and its only effect is one error APILog. -/
theorem callback_duplicate_delivery_amended
    (h : String → String → String) (ser : CallbackData → String)
    (now random_part t0 : Nat) (date_part : String)
    (st : WebhookState) (integ : Integration) (data : CallbackData) (p : Payment)
    (hint : st.integration = some integ)
    (hbody : data.hasStkBody = true)
    (_hcid : data.stk.checkoutRequestID = some p.mpesa_checkout_request_id)
    (_hcode : data.stk.resultCode = some 0)
    (_hpays : st.payments = [p])
    (_hterm : p.status = "completed")
    (_hca : p.completed_at = some t0) :
    mpesa_callback h ser now random_part date_part st
      (some (h integ.webhook_secret (ser data))) data
      = ({ st with apilogs := st.apilogs + 1 },
         ⟨500, "NameError: name Payment is not defined"⟩) := by
  have hlook : viewsGlobalLookup "Payment"
      = .error "NameError: name Payment is not defined" := rfl
  simp [mpesa_callback, hint, hbody, hlook]

/-- Witness for the amended C1 theorem on the duplicate-delivery fixtures. -/
theorem callback_duplicate_delivery_amended_witness :
    dupState.integration = some { webhook_secret := "sek" } ∧
    dupData.hasStkBody = true ∧
    dupData.stk.checkoutRequestID = some dupPayment.mpesa_checkout_request_id ∧
    dupData.stk.resultCode = some 0 ∧
    dupState.payments = [dupPayment] ∧
    dupPayment.status = "completed" ∧
    dupPayment.completed_at = some 100 ∧
    mpesa_callback hmacFn serFn 200 777 "20251012" dupState
      (some (hmacFn ({ webhook_secret := "sek" } : Integration).webhook_secret
        (serFn dupData))) dupData
      = ({ dupState with apilogs := dupState.apilogs + 1 },
         ⟨500, "NameError: name Payment is not defined"⟩) :=
  ⟨rfl, rfl, rfl, rfl, rfl, rfl, rfl,
    callback_duplicate_delivery_amended hmacFn serFn 200 777 100 "20251012" dupState
      { webhook_secret := "sek" } dupData dupPayment rfl rfl rfl rfl rfl rfl rfl⟩

/-! ## Payment reversal (src/payments/views.py, `PaymentViewSet.reverse`) -/

/-- `PaymentReversalSerializer` (src/payments/serializers.py lines 139-141):
`reason = serializers.CharField(required=True, max_length=500)` — the data
is valid iff the field is present, non-blank and at most 500 characters. -/
def reversalSerializerValid (reason : Option String) : Bool :=
  match reason with
  | none => false
  | some s => s ≠ "" && s.length ≤ 500

/-- `PaymentViewSet.reverse` (src/payments/views.py lines 271-305): 400 when
the payment is not `completed`; 400 when it is already reversed; 400 when
the reason is invalid; otherwise it sets `is_reversed`, `reversal_reason`
and `reversed_at` and saves.  Nothing in the method writes the `status`
field. -/
def PaymentViewSet.reverse (now random_part : Nat) (date_part : String)
    (payment : Payment) (reason : Option String) : Payment × HttpResponse :=
  if payment.status ≠ "completed" then
    (payment, ⟨400, "Only completed payments can be reversed."⟩)
  else if payment.is_reversed then
    (payment, ⟨400, "Payment has already been reversed."⟩)
  else if !reversalSerializerValid reason then
    (payment, ⟨400, "serializer errors"⟩)
  else
    let p := Payment.save random_part date_part
      { payment with is_reversed := true,
                     reversal_reason := reason.getD "",
                     reversed_at := some now }
    (p, ⟨200, "Payment reversal initiated"⟩)

/-- C6 counterexample: reversing a completed, unreversed Payment succeeds
(200, `is_reversed` set) but leaves the status field `"completed"` — the
Payment is never moved into the `reversed` state. -/
theorem reverse_keeps_status_completed_counterexample :
    ((PaymentViewSet.reverse 300 555 "20251012"
        { pk := 2, org_name := "Acme", payment_reference := "PAY-ACM-20251011-10001",
          amount := 1000, status := "completed" }
        (some "fraudulent charge")).2.code = 200) ∧
    ((PaymentViewSet.reverse 300 555 "20251012"
        { pk := 2, org_name := "Acme", payment_reference := "PAY-ACM-20251011-10001",
          amount := 1000, status := "completed" }
        (some "fraudulent charge")).1.is_reversed = true) ∧
    ((PaymentViewSet.reverse 300 555 "20251012"
        { pk := 2, org_name := "Acme", payment_reference := "PAY-ACM-20251011-10001",
          amount := 1000, status := "completed" }
        (some "fraudulent charge")).1.status = "completed") ∧
    ((PaymentViewSet.reverse 300 555 "20251012"
        { pk := 2, org_name := "Acme", payment_reference := "PAY-ACM-20251011-10001",
          amount := 1000, status := "completed" }
        (some "fraudulent charge")).1.status ≠ "reversed") := by
  decide

/-- C6 amended: reversal succeeds exactly when the Payment is `completed`,
not yet reversed, and a valid reason is supplied; on success it sets
`is_reversed`, `reversal_reason` and `reversed_at` while the `status` field
stays `"completed"` (the `reversed` status value is never assigned).  On a
Payment in any other state, or one already reversed, it fails with 400 and
returns the Payment unchanged — for every reason, valid or not, since the
status and reversal guards run first; and on a completed, unreversed
Payment with an invalid or missing reason it fails with 400 and the
Payment unchanged. -/
theorem reverse_guard_amended (now random_part : Nat) (date_part : String)
    (payment : Payment) (reason : Option String) :
    (payment.status ≠ "completed" →
      PaymentViewSet.reverse now random_part date_part payment reason
        = (payment, ⟨400, "Only completed payments can be reversed."⟩)) ∧
    (payment.status = "completed" → payment.is_reversed = true →
      PaymentViewSet.reverse now random_part date_part payment reason
        = (payment, ⟨400, "Payment has already been reversed."⟩)) ∧
    (payment.status = "completed" → payment.is_reversed = false →
      reversalSerializerValid reason = false →
      PaymentViewSet.reverse now random_part date_part payment reason
        = (payment, ⟨400, "serializer errors"⟩)) ∧
    (∀ s, reason = some s →
      payment.status = "completed" → payment.is_reversed = false →
      reversalSerializerValid reason = true →
      ((PaymentViewSet.reverse now random_part date_part payment reason).2.code = 200 ∧
       (PaymentViewSet.reverse now random_part date_part payment reason).1.is_reversed
         = true ∧
       (PaymentViewSet.reverse now random_part date_part payment reason).1.reversal_reason
         = s ∧
       (PaymentViewSet.reverse now random_part date_part payment reason).1.reversed_at
         = some now ∧
       (PaymentViewSet.reverse now random_part date_part payment reason).1.status
         = "completed")) := by
  refine ⟨?_, ?_, ?_, ?_⟩
  · intro h
    simp [PaymentViewSet.reverse, h]
  · intro h h2
    simp [PaymentViewSet.reverse, h, h2]
  · intro h h2 h3
    simp [PaymentViewSet.reverse, h, h2, h3]
  · intro s hs h h2 h3
    subst hs
    cases payment
    simp_all [PaymentViewSet.reverse, Payment.save]
    split_ifs <;> simp_all

/-- Witness for the amended C6 theorem on a concrete completed Payment and
a valid reason. -/
theorem reverse_guard_amended_witness :
    (({ pk := 2, org_name := "Acme", payment_reference := "PAY-ACM-20251011-10001",
        amount := 1000, status := "completed" } : Payment).status ≠ "completed" →
      PaymentViewSet.reverse 300 555 "20251012"
        { pk := 2, org_name := "Acme", payment_reference := "PAY-ACM-20251011-10001",
          amount := 1000, status := "completed" } (some "fraudulent charge")
        = ({ pk := 2, org_name := "Acme", payment_reference := "PAY-ACM-20251011-10001",
             amount := 1000, status := "completed" },
           ⟨400, "Only completed payments can be reversed."⟩)) ∧
    (({ pk := 2, org_name := "Acme", payment_reference := "PAY-ACM-20251011-10001",
        amount := 1000, status := "completed" } : Payment).status = "completed" →
     ({ pk := 2, org_name := "Acme", payment_reference := "PAY-ACM-20251011-10001",
        amount := 1000, status := "completed" } : Payment).is_reversed = true →
      PaymentViewSet.reverse 300 555 "20251012"
        { pk := 2, org_name := "Acme", payment_reference := "PAY-ACM-20251011-10001",
          amount := 1000, status := "completed" } (some "fraudulent charge")
        = ({ pk := 2, org_name := "Acme", payment_reference := "PAY-ACM-20251011-10001",
             amount := 1000, status := "completed" },
           ⟨400, "Payment has already been reversed."⟩)) ∧
    (({ pk := 2, org_name := "Acme", payment_reference := "PAY-ACM-20251011-10001",
        amount := 1000, status := "completed" } : Payment).status = "completed" →
     ({ pk := 2, org_name := "Acme", payment_reference := "PAY-ACM-20251011-10001",
        amount := 1000, status := "completed" } : Payment).is_reversed = false →
      reversalSerializerValid (some "fraudulent charge") = false →
      PaymentViewSet.reverse 300 555 "20251012"
        { pk := 2, org_name := "Acme", payment_reference := "PAY-ACM-20251011-10001",
          amount := 1000, status := "completed" } (some "fraudulent charge")
        = ({ pk := 2, org_name := "Acme", payment_reference := "PAY-ACM-20251011-10001",
             amount := 1000, status := "completed" },
           ⟨400, "serializer errors"⟩)) ∧
    (∀ s, (some "fraudulent charge" : Option String) = some s →
      ({ pk := 2, org_name := "Acme", payment_reference := "PAY-ACM-20251011-10001",
         amount := 1000, status := "completed" } : Payment).status = "completed" →
      ({ pk := 2, org_name := "Acme", payment_reference := "PAY-ACM-20251011-10001",
         amount := 1000, status := "completed" } : Payment).is_reversed = false →
      reversalSerializerValid (some "fraudulent charge") = true →
      ((PaymentViewSet.reverse 300 555 "20251012"
          { pk := 2, org_name := "Acme", payment_reference := "PAY-ACM-20251011-10001",
            amount := 1000, status := "completed" }
          (some "fraudulent charge")).2.code = 200 ∧
       (PaymentViewSet.reverse 300 555 "20251012"
          { pk := 2, org_name := "Acme", payment_reference := "PAY-ACM-20251011-10001",
            amount := 1000, status := "completed" }
          (some "fraudulent charge")).1.is_reversed = true ∧
       (PaymentViewSet.reverse 300 555 "20251012"
          { pk := 2, org_name := "Acme", payment_reference := "PAY-ACM-20251011-10001",
            amount := 1000, status := "completed" }
          (some "fraudulent charge")).1.reversal_reason = s ∧
       (PaymentViewSet.reverse 300 555 "20251012"
          { pk := 2, org_name := "Acme", payment_reference := "PAY-ACM-20251011-10001",
            amount := 1000, status := "completed" }
          (some "fraudulent charge")).1.reversed_at = some 300 ∧
       (PaymentViewSet.reverse 300 555 "20251012"
          { pk := 2, org_name := "Acme", payment_reference := "PAY-ACM-20251011-10001",
            amount := 1000, status := "completed" }
          (some "fraudulent charge")).1.status = "completed")) :=
  reverse_guard_amended 300 555 "20251012"
    { pk := 2, org_name := "Acme", payment_reference := "PAY-ACM-20251011-10001",
      amount := 1000, status := "completed" }
    (some "fraudulent charge")

/-! ## Manual payment recording
(src/payments/views.py, `InvoiceViewSet.record_payment` lines 575-636 and
`PaymentPlanViewSet.record_installment` lines 707-758)

Both actions read `request.data.get('amount')` — modeled as `Option Int`
(cents), `none` for an absent field — reject a falsy value (`if not
amount`: absent, or the number 0), then convert with `float(amount)`.
From that point the request amount is a Python `float`, while every
`DecimalField` value loaded from the database is a `decimal.Decimal`; the
runtime type tags of the two numeric kinds are tracked by `PyNum`, because
Python refuses to add them. -/

/-- A Python number at runtime: a `decimal.Decimal` or a `float`, carrying
its exact value in cents (every value exercised here is exactly
representable). -/
inductive PyNum
  | dec (v : Int)
  | flt (v : Int)
  deriving Repr, DecidableEq

/-- The exact value carried. -/
def PyNum.val : PyNum → Int
  | .dec v => v
  | .flt v => v

/-- Python `+` on numbers: `Decimal + float` (either order) raises
`TypeError: unsupported operand type(s)`; same-kind addition is exact. -/
def PyNum.add : PyNum → PyNum → Except String PyNum
  | .dec a, .dec b => .ok (.dec (a + b))
  | .flt a, .flt b => .ok (.flt (a + b))
  | .dec _, .flt _ => .error "TypeError: unsupported operand types Decimal and float"
  | .flt _, .dec _ => .error "TypeError: unsupported operand types float and Decimal"

/-- The complete attribute (field) list of the `Invoice` model
(src/payments/models.py lines 145-255).  Note the absence of `currency`. -/
def invoiceFieldNames : List String :=
  ["id", "organization", "customer", "invoice_number", "reference", "issue_date",
   "due_date", "paid_date", "subtotal", "tax_amount", "discount_amount",
   "total_amount", "amount_paid", "balance_due", "status", "items",
   "terms_and_conditions", "notes", "payment_link", "payment_link_expiry",
   "created_by", "created_at", "updated_at"]

/-- `getattr(invoice, name)`: Python raises `AttributeError` when the model
defines no such field. -/
def invoiceGetAttr (name : String) : Except String Unit :=
  if invoiceFieldNames.contains name then .ok ()
  else .error ("AttributeError: Invoice object has no attribute " ++ name)

/-- The rows visible to `record_payment`: the invoice under the action,
the Payment table, and the notification queue. -/
structure InvoicePaymentState where
  invoice : Invoice
  payments : List Payment := []
  notifications : List NotificationRequest := []
  deriving Repr, DecidableEq

/-- `InvoiceViewSet.record_payment` (src/payments/views.py lines 575-636).

Checks in source order: missing amount → 400; `float(amount)` (always
succeeds on a JSON number; from here the amount is a float); then the
keyword arguments of `Payment.objects.create` are evaluated and
`currency=invoice.currency` hits a field the Invoice model does not define,
so the evaluation raises `AttributeError` before any row is created — the
action has no handler, DRF answers 500, and nothing was mutated.  The
continuation after that point (Payment creation, `invoice.amount_paid +=
amount` — itself a `Decimal + float` `TypeError` — and the notification) is
translated for completeness but is unreachable. -/
def InvoiceViewSet.record_payment (now today random_part : Nat)
    (date_part pay_date_part : String) (last_invoice : Option Invoice)
    (cust : Customer) (st : InvoicePaymentState)
    (amount : Option Int) (method reference : String) :
    InvoicePaymentState × HttpResponse :=
  match amount with
  | none => (st, ⟨400, "amount is required."⟩)
  | some a =>
    if a = 0 then
      (st, ⟨400, "amount is required."⟩)
    else
      match invoiceGetAttr "currency" with
      | .error e => (st, ⟨500, e⟩)
      | .ok _ =>
        let payment := Payment.save random_part pay_date_part
          { org_name := st.invoice.org_name, customer := some st.invoice.customer_id,
            amount := a, payment_method := method, payment_type := "invoice",
            description := "Payment for invoice " ++ st.invoice.invoice_number,
            payer_phone := cust.phone_number,
            payer_name := cust.first_name ++ " " ++ cust.last_name,
            status := "completed", completed_at := some now,
            external_reference := reference }
        let st1 := { st with payments := st.payments ++ [payment] }
        match PyNum.add (.dec st.invoice.amount_paid) (.flt a) with
        | .error e => (st1, ⟨500, e⟩)
        | .ok v =>
          match Invoice.save today date_part last_invoice
              { st.invoice with amount_paid := v.val } with
          | .error e => (st1, ⟨500, e⟩)
          | .ok inv1 =>
            ({ st1 with invoice := inv1,
                        notifications := st1.notifications ++
                          [{ recipient_type := "customer",
                             recipient_id := some (toString st.invoice.customer_id),
                             notification_type := "payment_received", channel := "sms" }] },
              ⟨200, "Payment recorded successfully"⟩)

/-- The `PaymentPlan` model fields used by `record_installment`
(src/payments/models.py, class `PaymentPlan`). -/
structure PaymentPlan where
  org_name : String := ""
  customer_id : Nat := 0
  name : String := ""
  total_amount : Int := 0
  amount_paid : Int := 0
  balance : Int := 0
  status : String := "active"
  deriving Repr, DecidableEq

/-- The rows visible to `record_installment`. -/
structure PlanState where
  plan : PaymentPlan
  payments : List Payment := []
  deriving Repr, DecidableEq

/-- `PaymentPlanViewSet.record_installment` (src/payments/views.py lines
707-758).

Missing/falsy amount → 400; `float(amount)` succeeds; the Payment row is
created (and committed — there is no enclosing transaction) with the raw
amount, status `completed`; then `payment_plan.amount_paid += amount` adds a
`Decimal` and a `float`, which raises `TypeError`: the plan is never
updated and the action answers 500, with the Payment left behind.  The
continuation (balance recomputation and completion check) is translated for
completeness but is unreachable. -/
def PaymentPlanViewSet.record_installment (now random_part : Nat)
    (pay_date_part : String) (cust : Customer) (st : PlanState)
    (amount : Option Int) (method : String) :
    PlanState × HttpResponse :=
  match amount with
  | none => (st, ⟨400, "amount is required."⟩)
  | some a =>
    if a = 0 then
      (st, ⟨400, "amount is required."⟩)
    else
      let payment := Payment.save random_part pay_date_part
        { org_name := st.plan.org_name, customer := some st.plan.customer_id,
          amount := a, payment_method := method, payment_type := "subscription",
          description := "Installment for " ++ st.plan.name,
          payer_phone := cust.phone_number,
          payer_name := cust.first_name ++ " " ++ cust.last_name,
          status := "completed", completed_at := some now }
      let st1 := { st with payments := st.payments ++ [payment] }
      match PyNum.add (.dec st.plan.amount_paid) (.flt a) with
      | .error e => (st1, ⟨500, e⟩)
      | .ok v =>
        let plan1 : PaymentPlan := { st.plan with amount_paid := v.val }
        let plan2 : PaymentPlan := { plan1 with balance := plan1.total_amount - plan1.amount_paid }
        let plan3 : PaymentPlan :=
          if plan2.balance ≤ 0 then { plan2 with status := "completed" } else plan2
        ({ st1 with plan := plan3 }, ⟨200, "Installment recorded successfully"⟩)

/-- Fixtures for the manual-recording claims: a customer, an active plan of
1000.00 with nothing paid, and a sent invoice of 1000.00 with nothing
paid. -/
def c8Cust : Customer :=
  { id := 9, phone_number := "254700000002", first_name := "Jane", last_name := "Doe" }

def c8Plan : PaymentPlan :=
  { org_name := "Acme", customer_id := 9, name := "School fees",
    total_amount := 100000, balance := 100000 }

def c8Inv : Invoice :=
  { org_name := "Acme", customer_id := 9, invoice_number := "INV-ACM-202510-00001",
    total_amount := 100000, amount_paid := 0, balance_due := 100000,
    status := "sent", due_date := 738200 }

/-- C8 at its failing input (amount = −100.00): neither action rejects a
negative amount with `InvalidAmount`.  `record_installment` creates and
commits a `completed` Payment of −100.00 and then dies with a 500
(`Decimal + float` TypeError) leaving the plan untouched;
`record_payment` dies with a 500 (`AttributeError`: the Invoice model has
no `currency` field) before its per-amount logic even runs.  A zero
amount is rejected, but by the falsiness check with the message
`amount is required.`, not as `InvalidAmount`. -/
theorem record_negative_amount_not_rejected :
    ((PaymentPlanViewSet.record_installment 400 32154 "20251012" c8Cust
        { plan := c8Plan } (some (-10000)) "mpesa").2.code = 500) ∧
    ((PaymentPlanViewSet.record_installment 400 32154 "20251012" c8Cust
        { plan := c8Plan } (some (-10000)) "mpesa").1.plan = c8Plan) ∧
    ((PaymentPlanViewSet.record_installment 400 32154 "20251012" c8Cust
        { plan := c8Plan } (some (-10000)) "mpesa").1.payments.map Payment.amount
      = [-10000]) ∧
    ((PaymentPlanViewSet.record_installment 400 32154 "20251012" c8Cust
        { plan := c8Plan } (some (-10000)) "mpesa").1.payments.map Payment.status
      = ["completed"]) ∧
    (InvoiceViewSet.record_payment 400 738100 32154 "202510" "20251012" none c8Cust
        { invoice := c8Inv } (some (-10000)) "cash" ""
      = ({ invoice := c8Inv },
         ⟨500, "AttributeError: Invoice object has no attribute currency"⟩)) ∧
    ((InvoiceViewSet.record_payment 400 738100 32154 "202510" "20251012" none c8Cust
        { invoice := c8Inv } (some 0) "cash" "").2 = ⟨400, "amount is required."⟩) := by
  decide

/-- C10 counterexample: recording 1500.00 against an invoice whose
`balance_due` is 1000.00 (a strict overpayment) does not succeed: the
action answers 500 (`AttributeError`: the Invoice model has no `currency`
field), creates no Payment, and the invoice keeps `status = "sent"`,
`amount_paid = 0` — it never becomes `paid`. -/
theorem overpayment_not_accepted_counterexample :
    (c8Inv.balance_due < 150000) ∧
    ((InvoiceViewSet.record_payment 400 738100 32154 "202510" "20251012" none c8Cust
        { invoice := c8Inv } (some 150000) "cash" "").2.code = 500) ∧
    ((InvoiceViewSet.record_payment 400 738100 32154 "202510" "20251012" none c8Cust
        { invoice := c8Inv } (some 150000) "cash" "").1 = { invoice := c8Inv }) ∧
    (c8Inv.status = "sent") ∧ (c8Inv.status ≠ "paid") := by
  decide

/-- C10 amended: `record_payment` imposes no upper bound and runs no
overpayment check, but no nonzero numeric amount — overpayments included —
ever succeeds: evaluating `currency=invoice.currency` among the
`Payment.objects.create` keyword arguments raises `AttributeError` (the
Invoice model defines no `currency` field), so the action answers 500 with
the Invoice unchanged and no Payment created. -/
theorem record_payment_always_errors (now today random_part : Nat)
    (date_part pay_date_part : String) (last_invoice : Option Invoice)
    (cust : Customer) (st : InvoicePaymentState) (a : Int)
    (method reference : String) (ha : a ≠ 0) :
    InvoiceViewSet.record_payment now today random_part date_part pay_date_part
      last_invoice cust st (some a) method reference
      = (st, ⟨500, "AttributeError: Invoice object has no attribute currency"⟩) := by
  have hattr : invoiceGetAttr "currency"
      = .error "AttributeError: Invoice object has no attribute currency" := rfl
  simp [InvoiceViewSet.record_payment, ha, hattr]

/-- Witness for the amended C10 theorem: the 1500.00 overpayment. -/
theorem record_payment_always_errors_witness :
    ((150000 : Int) ≠ 0) ∧
    InvoiceViewSet.record_payment 400 738100 32154 "202510" "20251012" none c8Cust
      { invoice := c8Inv } (some 150000) "cash" ""
      = ({ invoice := c8Inv },
         ⟨500, "AttributeError: Invoice object has no attribute currency"⟩) :=
  ⟨by decide,
    record_payment_always_errors 400 738100 32154 "202510" "20251012" none c8Cust
      { invoice := c8Inv } 150000 "cash" "" (by decide)⟩

/-! ## Notification dispatch (src/notifications/tasks.py, `send_notification`,
and src/notifications/models.py, `Notification.mark_as_sent` /
`mark_as_failed`)

Times of day (for quiet hours) are modeled at hour granularity, matching
the `.hour` arithmetic of the source; no claim exercises quiet hours. -/

/-- The `Notification` fields used by the dispatch task. -/
structure Notification where
  status : String := "pending"
  delivery_attempts : Nat := 0
  failure_reason : String := ""
  recipient_type : String := "customer"
  channel : String := "sms"
  scheduled_for : Option Nat := none
  sent_at : Option Nat := none
  delivered_at : Option Nat := none
  provider_message_id : String := ""
  deriving Repr, DecidableEq

/-- `Notification.mark_as_sent` (src/notifications/models.py lines
181-189). -/
def Notification.mark_as_sent (now : Nat) (pmid : Option String)
    (n : Notification) : Notification :=
  let n := { n with status := "sent", sent_at := some now }
  match pmid with
  | some m => { n with provider_message_id := m }
  | none => n

/-- `Notification.mark_as_failed` (src/notifications/models.py lines
191-196): note that this increments `delivery_attempts` itself. -/
def Notification.mark_as_failed (reason : String) (n : Notification) : Notification :=
  { n with status := "failed", failure_reason := reason,
           delivery_attempts := n.delivery_attempts + 1 }

/-- `NotificationPreference` channel flags and quiet hours
(src/notifications/models.py). -/
structure NotificationPreference where
  receive_sms : Bool := true
  receive_email : Bool := true
  receive_whatsapp : Bool := true
  receive_push : Bool := true
  quiet_hours_start : Option Nat := none
  quiet_hours_end : Option Nat := none
  deriving Repr, DecidableEq

/-- The dictionary `_send_by_channel` returns. -/
structure DispatchResult where
  success : Bool
  error : String := ""
  provider_message_id : Option String := none
  deriving Repr, DecidableEq

/-- The observable outcome of one execution of the `send_notification`
task: the saved notification, the countdown (seconds) of any
`apply_async` it scheduled, whether `_send_by_channel` ran, and the
`success` flag of the returned dict. -/
structure TaskStep where
  notification : Notification
  retry_countdown : Option Nat := none
  dispatched : Bool := false
  success : Bool := false
  deriving Repr, DecidableEq

/-- The body of `send_notification` after the already-sent and
scheduled-for-future guards (src/notifications/tasks.py lines 70-177):
preference checks for user recipients, then status `processing` with
`delivery_attempts += 1`, dispatch, and `mark_as_sent` on success or
`mark_as_failed` plus a retry at `300 * delivery_attempts` seconds while
`delivery_attempts < 3` on failure. -/
def send_notification_core (now now_hour : Nat)
    (preference : Option NotificationPreference)
    (dispatch : Notification → DispatchResult) (n : Notification) : TaskStep :=
  let prefStep : Option TaskStep :=
    if n.recipient_type = "user" then
      match preference with
      | none => none
      | some pref =>
        if n.channel = "sms" ∧ ¬pref.receive_sms then
          some { notification := n.mark_as_failed "User has disabled SMS notifications" }
        else if n.channel = "email" ∧ ¬pref.receive_email then
          some { notification := n.mark_as_failed "User has disabled email notifications" }
        else if n.channel = "whatsapp" ∧ ¬pref.receive_whatsapp then
          some { notification := n.mark_as_failed "User has disabled WhatsApp notifications" }
        else if n.channel = "push" ∧ ¬pref.receive_push then
          some { notification := n.mark_as_failed "User has disabled push notifications" }
        else
          match pref.quiet_hours_start, pref.quiet_hours_end with
          | some qs, some qe =>
            if qs ≤ now_hour ∧ now_hour ≤ qe then
              some { notification := { n with status := "pending" },
                     retry_countdown := some ((qe - now_hour) * 3600), success := true }
            else none
          | _, _ => none
    else none
  match prefStep with
  | some step => step
  | none =>
    let n1 := { n with status := "processing",
                       delivery_attempts := n.delivery_attempts + 1 }
    let result := dispatch n1
    if result.success then
      let n2 := n1.mark_as_sent now result.provider_message_id
      let n3 := if n2.channel = "in_app" then
          { n2 with status := "delivered", delivered_at := some now } else n2
      { notification := n3, dispatched := true, success := true }
    else
      let n2 := n1.mark_as_failed result.error
      let retry := if n2.delivery_attempts < 3 then some (300 * n2.delivery_attempts) else none
      { notification := n2, retry_countdown := retry, dispatched := true, success := false }

/-- One execution of the `send_notification` task (src/notifications/tasks.py
lines 22-201): no-op success when the status is already terminal
(`sent`/`delivered`/`read`); reschedule when `scheduled_for` lies in the
future; otherwise the core above. -/
def send_notification_task (now now_hour : Nat)
    (preference : Option NotificationPreference)
    (dispatch : Notification → DispatchResult) (n : Notification) : TaskStep :=
  if n.status = "sent" ∨ n.status = "delivered" ∨ n.status = "read" then
    { notification := n, success := true }
  else
    match n.scheduled_for with
    | some t =>
      if now < t then
        { notification := n, retry_countdown := some (min (t - now) 3600), success := true }
      else send_notification_core now now_hour preference dispatch n
    | none => send_notification_core now now_hour preference dispatch n

/-- The chain of task executions produced by following every scheduled
`apply_async` retry (the worker re-runs the task after the countdown);
`fuel` bounds the chain length examined.  Returns the final notification
row, the list of scheduled countdowns in order, and the number of channel
dispatches performed. -/
def send_notification_retries (now now_hour : Nat)
    (preference : Option NotificationPreference)
    (dispatch : Notification → DispatchResult) :
    Nat → Notification → Notification × List Nat × Nat
  | 0, n => (n, [], 0)
  | fuel + 1, n =>
    let step := send_notification_task now now_hour preference dispatch n
    let d : Nat := if step.dispatched then 1 else 0
    match step.retry_countdown with
    | none => (step.notification, [], d)
    | some c =>
      let rest := send_notification_retries now now_hour preference dispatch fuel
        step.notification
      (rest.1, c :: rest.2.1, d + rest.2.2)

/-- C9 at its failing input — a fresh pending SMS notification whose
channel send fails on every attempt: the dispatcher performs only 2
delivery attempts in total and schedules exactly one retry, at 600 seconds
(10 minutes); no 5- or 15-minute retry ever exists, and the final
`delivery_attempts` field reads 4 (each failed attempt is counted twice:
once by the task, once by `mark_as_failed`), not the number of attempts
made.  The notification does remain `failed` with no further retry. -/
theorem notification_retry_schedule_failing_input :
    (send_notification_retries 0 12 none
        (fun _ => { success := false, error := "provider unavailable" }) 10 {}).2.1
      = [600] ∧
    (send_notification_retries 0 12 none
        (fun _ => { success := false, error := "provider unavailable" }) 10 {}).2.2 = 2 ∧
    (send_notification_retries 0 12 none
        (fun _ => { success := false, error := "provider unavailable" }) 10 {}).1.status
      = "failed" ∧
    (send_notification_retries 0 12 none
        (fun _ => { success := false, error := "provider unavailable" }) 10 {}).1.delivery_attempts
      = 4 := by
  decide

end PesaFlow
